import Mathlib

/-!
Shallow embedding of the Pratt-parser SQL front end (src/ast.rs, src/parser.rs,
src/main.rs).  The tokenizer and the Pratt expression parser are referenced by
the statement parser but their source files are not part of the repository
snapshot; they are modelled from the specification and marked as such in their
doc comments.  All statement-parser functions translate src/parser.rs line by
line: the parser state is the fixed token list plus an explicit cursor, and
every operation returns its result together with the new cursor, also on the
error path, exactly as the Rust methods mutate `self.position`.
-/

namespace SQLParser

/-- Keywords of the dialect.  Modelled from the spec: the spec's keyword set
(SELECT, FROM, WHERE, ORDER, BY, CREATE, TABLE, INSERT, INTO, VALUES, INT,
VARCHAR, BOOLEAN, AND, OR, NOT) plus `leftParen`, which must exist as a
`Keyword` variant because src/parser.rs references `Keyword::LeftParen` in
`parse_create_table` and `parse_insert`. -/
inductive Keyword where
  | select
  | from_
  | where_
  | order
  | by_
  | create
  | table
  | insert
  | into
  | values
  | int
  | varchar
  | boolean
  | and_
  | or_
  | not_
  | leftParen
deriving DecidableEq

/-- Tokens.  Modelled from the spec's token model: keywords, identifiers,
number / string / boolean / NULL literals, punctuation, the symbolic
operators `=`, `<>`, `<`, `<=`, `>`, `>=`, `+`, `-`, `*`, `/`, and the `Eof`
sentinel. -/
inductive Token where
  | keyword (k : Keyword)
  | identifier (s : String)
  | number (n : Nat)
  | string (s : String)
  | boolean (b : Bool)
  | null
  | comma
  | semicolon
  | leftParen
  | rightParen
  | eq
  | neq
  | lt
  | le
  | gt
  | ge
  | plus
  | minus
  | star
  | slash
  | eof
deriving DecidableEq

/-- Two-input operators of src/ast.rs (`BinaryOperator`). -/
inductive BinaryOperator where
  | equals
  | notEquals
  | greaterThan
  | greaterThanOrEqual
  | lessThan
  | lessThanOrEqual
  | and_
  | or_
  | add
  | subtract
  | multiply
  | divide
deriving DecidableEq

/-- Single-input operators of src/ast.rs (`UnaryOperator`). -/
inductive UnaryOperator where
  | not_
  | negate
deriving DecidableEq

/-- Expressions of src/ast.rs (`Expression`). -/
inductive Expression where
  | identifier (s : String)
  | number (n : Nat)
  | string (s : String)
  | unaryOperation (operator : UnaryOperator) (operand : Expression)
  | binaryOperation (leftOperand : Expression) (operator : BinaryOperator)
      (rightOperand : Expression)
  | boolean (b : Bool)
  | null
  | grouped (e : Expression)
deriving DecidableEq

/-- Column data types of src/ast.rs (`DataType`). -/
inductive DataType where
  | int
  | varchar (size : Nat)
  | boolean
deriving DecidableEq

/-- Column definitions of src/ast.rs (`ColumnDef`). -/
structure ColumnDef where
  name : String
  dataType : DataType
deriving DecidableEq

/-- Top-level statements of src/ast.rs (`Statement`). -/
inductive Statement where
  | select (columns : List String) (table : String)
      (selection : Option Expression) (orderBy : Option (List String))
  | createTable (tableName : String) (columns : List ColumnDef)
  | insert (tableName : String) (columns : List String)
      (values : List Expression)
deriving DecidableEq

/-- Parse errors of src/main.rs (`ParseError`). -/
inductive ParseError where
  | unexpectedEnd
  | expectedKeyword (s : String)
  | expectedIdentifier
  | invalidExpression (s : String)
  | unknownStartOfStatement (s : String)
  | expectedToken (s : String) (t : Option Token)
  | unexpectedToken (t : Token)
  | general (s : String)
deriving DecidableEq

/-- The string produced by Rust's derived `Debug` for a `Keyword` value,
used by `expect_keyword` and the error messages of src/parser.rs. -/
def keywordDebug : Keyword → String
  | Keyword.select => "Select"
  | Keyword.from_ => "From"
  | Keyword.where_ => "Where"
  | Keyword.order => "Order"
  | Keyword.by_ => "By"
  | Keyword.create => "Create"
  | Keyword.table => "Table"
  | Keyword.insert => "Insert"
  | Keyword.into => "Into"
  | Keyword.values => "Values"
  | Keyword.int => "Int"
  | Keyword.varchar => "Varchar"
  | Keyword.boolean => "Boolean"
  | Keyword.and_ => "And"
  | Keyword.or_ => "Or"
  | Keyword.not_ => "Not"
  | Keyword.leftParen => "LeftParen"

/-- The string produced by Rust's derived `Debug` for a `Token` value, used
by the `format!` calls in the error branches of src/parser.rs. -/
def tokenDebug : Token → String
  | Token.keyword k => "Keyword(" ++ keywordDebug k ++ ")"
  | Token.identifier s => "Identifier(\"" ++ s ++ "\")"
  | Token.number n => "Number(" ++ toString n ++ ")"
  | Token.string s => "String(\"" ++ s ++ "\")"
  | Token.boolean b => "Boolean(" ++ (if b then "true" else "false") ++ ")"
  | Token.null => "Null"
  | Token.comma => "Comma"
  | Token.semicolon => "Semicolon"
  | Token.leftParen => "LeftParen"
  | Token.rightParen => "RightParen"
  | Token.eq => "Equals"
  | Token.neq => "NotEquals"
  | Token.lt => "LessThan"
  | Token.le => "LessThanOrEqual"
  | Token.gt => "GreaterThan"
  | Token.ge => "GreaterThanOrEqual"
  | Token.plus => "Plus"
  | Token.minus => "Minus"
  | Token.star => "Star"
  | Token.slash => "Slash"
  | Token.eof => "Eof"

/-- Modelled from the spec: the tokenizer's keyword table (tokenizer.rs is not
in the repository snapshot).  Keyword matching is exact on the upper-case
spellings; `(` is punctuation, never a keyword token. -/
def keywordOfString : String → Option Keyword
  | "SELECT" => some Keyword.select
  | "FROM" => some Keyword.from_
  | "WHERE" => some Keyword.where_
  | "ORDER" => some Keyword.order
  | "BY" => some Keyword.by_
  | "CREATE" => some Keyword.create
  | "TABLE" => some Keyword.table
  | "INSERT" => some Keyword.insert
  | "INTO" => some Keyword.into
  | "VALUES" => some Keyword.values
  | "INT" => some Keyword.int
  | "VARCHAR" => some Keyword.varchar
  | "BOOLEAN" => some Keyword.boolean
  | "AND" => some Keyword.and_
  | "OR" => some Keyword.or_
  | "NOT" => some Keyword.not_
  | _ => none

/-- Modelled from the spec: classification of a scanned word as a boolean
literal, `NULL`, a keyword, or an identifier. -/
def wordToken (s : String) : Token :=
  if s = "true" then Token.boolean true
  else if s = "false" then Token.boolean false
  else if s = "NULL" then Token.null
  else
    match keywordOfString s with
    | some k => Token.keyword k
    | none => Token.identifier s

/-- First character of an identifier or keyword word. -/
def isIdentStart (c : Char) : Bool := c.isAlpha || c = '_'

/-- Continuation character of an identifier or keyword word. -/
def isIdentChar (c : Char) : Bool := c.isAlphanum || c = '_'

/-- Modelled from the spec: digit accumulation of a numeric literal into an
unsigned integer value; returns the value and the unconsumed rest. -/
def lexNumber (acc : Nat) : List Char → Nat × List Char
  | [] => (acc, [])
  | c :: cs =>
    if c.isDigit then lexNumber (acc * 10 + (c.toNat - 48)) cs
    else (acc, c :: cs)

/-- Modelled from the spec: scanning of an identifier or keyword word;
returns the word's characters and the unconsumed rest. -/
def lexWord (acc : List Char) : List Char → List Char × List Char
  | [] => (acc, [])
  | c :: cs =>
    if isIdentChar c then lexWord (acc ++ [c]) cs
    else (acc, c :: cs)

/-- Modelled from the spec: scanning of a quote-delimited string literal
after its opening quote; consumes through the closing quote.  An unterminated
literal consumes the rest of the input (totality fallback, unexercised by the
claims). -/
def lexString (acc : List Char) : List Char → String × List Char
  | [] => (String.mk acc, [])
  | c :: cs =>
    if c = '\'' then (String.mk acc, cs)
    else lexString (acc ++ [c]) cs

/-- Modelled from the spec: the tokenizer's scanning loop over the character
list.  Whitespace is skipped, two-character operators are matched greedily
before their one-character prefixes, and the output always ends in exactly
one `Eof`.  The fuel argument is a structural-recursion bound; one character
is consumed per step, so `length + 1` fuel (as supplied by `tokenize`) always
reaches the end of the input. -/
def tokenizeChars : Nat → List Char → List Token
  | 0, _ => [Token.eof]
  | _, [] => [Token.eof]
  | fuel + 1, c :: cs =>
    if c.isWhitespace then tokenizeChars fuel cs
    else if c.isDigit then
      let r := lexNumber (c.toNat - 48) cs
      Token.number r.1 :: tokenizeChars fuel r.2
    else if isIdentStart c then
      let r := lexWord [c] cs
      wordToken (String.mk r.1) :: tokenizeChars fuel r.2
    else if c = '\'' then
      let r := lexString [] cs
      Token.string r.1 :: tokenizeChars fuel r.2
    else if c = '<' then
      match cs with
      | '>' :: rest => Token.neq :: tokenizeChars fuel rest
      | '=' :: rest => Token.le :: tokenizeChars fuel rest
      | _ => Token.lt :: tokenizeChars fuel cs
    else if c = '>' then
      match cs with
      | '=' :: rest => Token.ge :: tokenizeChars fuel rest
      | _ => Token.gt :: tokenizeChars fuel cs
    else if c = '=' then Token.eq :: tokenizeChars fuel cs
    else if c = ',' then Token.comma :: tokenizeChars fuel cs
    else if c = ';' then Token.semicolon :: tokenizeChars fuel cs
    else if c = '(' then Token.leftParen :: tokenizeChars fuel cs
    else if c = ')' then Token.rightParen :: tokenizeChars fuel cs
    else if c = '+' then Token.plus :: tokenizeChars fuel cs
    else if c = '-' then Token.minus :: tokenizeChars fuel cs
    else if c = '*' then Token.star :: tokenizeChars fuel cs
    else if c = '/' then Token.slash :: tokenizeChars fuel cs
    else tokenizeChars fuel cs

/-- Modelled from the spec: `tokenize(text) -> sequence<Token>`, a total
function whose result always ends in exactly one `Eof`. -/
def tokenize (s : String) : List Token :=
  tokenizeChars (s.length + 1) s.data

/-- Modelled from the spec: the Pratt parser's operator table, mapping a
token to its binary operator and left binding power.  The spec's precedence
order, low to high: OR (1) < AND (2) < unary NOT (3) < comparisons (4) <
additive (5) < unary negation (6) < multiplicative (7). -/
def binaryOpPower : Token → Option (BinaryOperator × Nat)
  | Token.keyword Keyword.or_ => some (BinaryOperator.or_, 1)
  | Token.keyword Keyword.and_ => some (BinaryOperator.and_, 2)
  | Token.eq => some (BinaryOperator.equals, 4)
  | Token.neq => some (BinaryOperator.notEquals, 4)
  | Token.lt => some (BinaryOperator.lessThan, 4)
  | Token.le => some (BinaryOperator.lessThanOrEqual, 4)
  | Token.gt => some (BinaryOperator.greaterThan, 4)
  | Token.ge => some (BinaryOperator.greaterThanOrEqual, 4)
  | Token.plus => some (BinaryOperator.add, 5)
  | Token.minus => some (BinaryOperator.subtract, 5)
  | Token.star => some (BinaryOperator.multiply, 7)
  | Token.slash => some (BinaryOperator.divide, 7)
  | _ => none

mutual

/-- Modelled from the spec: `PrattParser::parse_expression(min_bp)`
(pratt.rs is not in the repository snapshot).  Parses a primary, then folds
binary operators of binding power at least `minBp`, the right-hand side
parsed at `power + 1` for left-associativity.  Works over the token slice
handed to it, with its own cursor starting at `pos`; returns the expression
and the cursor after it.  The fuel argument bounds the recursion; every
recursive call follows the consumption of at least one token, so the fuel
supplied at the entry call (three times the slice length plus three) never
runs out. -/
def parse_expression (fuel : Nat) (minBp : Nat) (toks : List Token)
    (pos : Nat) : Except String (Expression × Nat) :=
  match fuel with
  | 0 => Except.error "expression nesting exceeds input length"
  | fuel + 1 =>
    match parse_primary fuel toks pos with
    | Except.error e => Except.error e
    | Except.ok (lhs, p) => pratt_loop fuel minBp toks p lhs
termination_by structural fuel

/-- Modelled from the spec: the Pratt parser's primary rule — a literal, an
identifier, a unary operator applied to an operand parsed at the operator's
own binding power, or a parenthesized sub-expression wrapped in `grouped`. -/
def parse_primary (fuel : Nat) (toks : List Token) (pos : Nat) :
    Except String (Expression × Nat) :=
  match fuel with
  | 0 => Except.error "expression nesting exceeds input length"
  | fuel + 1 =>
    match toks[pos]? with
    | some (Token.number n) => Except.ok (Expression.number n, pos + 1)
    | some (Token.string s) => Except.ok (Expression.string s, pos + 1)
    | some (Token.boolean b) => Except.ok (Expression.boolean b, pos + 1)
    | some Token.null => Except.ok (Expression.null, pos + 1)
    | some (Token.identifier s) =>
      Except.ok (Expression.identifier s, pos + 1)
    | some (Token.keyword Keyword.not_) =>
      match parse_expression fuel 3 toks (pos + 1) with
      | Except.error e => Except.error e
      | Except.ok (e, p) =>
        Except.ok (Expression.unaryOperation UnaryOperator.not_ e, p)
    | some Token.minus =>
      match parse_expression fuel 6 toks (pos + 1) with
      | Except.error e => Except.error e
      | Except.ok (e, p) =>
        Except.ok (Expression.unaryOperation UnaryOperator.negate e, p)
    | some Token.leftParen =>
      match parse_expression fuel 1 toks (pos + 1) with
      | Except.error e => Except.error e
      | Except.ok (e, p) =>
        match toks[p]? with
        | some Token.rightParen => Except.ok (Expression.grouped e, p + 1)
        | _ => Except.error "expected closing parenthesis"
    | some tok => Except.error ("expected an expression, found " ++ tokenDebug tok)
    | none => Except.error "unexpected end of input in expression"
termination_by structural fuel

/-- Modelled from the spec: the Pratt parser's operator-folding loop.  Stops
when the next token is not a binary operator or its binding power is below
`minBp`; otherwise consumes the operator, parses the right-hand side at
`power + 1`, and continues with the folded `binaryOperation` as the new
left operand. -/
def pratt_loop (fuel : Nat) (minBp : Nat) (toks : List Token) (pos : Nat)
    (lhs : Expression) : Except String (Expression × Nat) :=
  match fuel with
  | 0 => Except.error "expression nesting exceeds input length"
  | fuel + 1 =>
    match toks[pos]? with
    | none => Except.ok (lhs, pos)
    | some tok =>
      match binaryOpPower tok with
      | none => Except.ok (lhs, pos)
      | some (op, power) =>
        if power < minBp then Except.ok (lhs, pos)
        else
          match parse_expression fuel (power + 1) toks (pos + 1) with
          | Except.error e => Except.error e
          | Except.ok (rhs, p) =>
            pratt_loop fuel minBp toks p
              (Expression.binaryOperation lhs op rhs)
termination_by structural fuel

end

/-- `SQLParser::peek` (src/parser.rs line 16): the token at the cursor,
through Option-returning indexing; does not move the cursor. -/
def peek (toks : List Token) (pos : Nat) : Option Token :=
  toks[pos]?

/-- `SQLParser::advance` (src/parser.rs line 20): the token at the cursor,
and the cursor incremented — also when the cursor is already past the end. -/
def advance (toks : List Token) (pos : Nat) : Option Token × Nat :=
  (toks[pos]?, pos + 1)

/-- `SQLParser::expect_keyword` (src/parser.rs lines 26–32).  The advance is
inlined: every branch returns the cursor incremented by one. -/
def expect_keyword (toks : List Token) (pos : Nat) (k : Keyword) :
    Except ParseError Unit × Nat :=
  match toks[pos]? with
  | some (Token.keyword k2) =>
    if k2 = k then (Except.ok (), pos + 1)
    else (Except.error (ParseError.expectedKeyword (keywordDebug k)), pos + 1)
  | some _ =>
    (Except.error (ParseError.expectedKeyword (keywordDebug k)), pos + 1)
  | none => (Except.error ParseError.unexpectedEnd, pos + 1)

/-- `SQLParser::expect_identifier` (src/parser.rs lines 34–40). -/
def expect_identifier (toks : List Token) (pos : Nat) :
    Except ParseError String × Nat :=
  match toks[pos]? with
  | some (Token.identifier name) => (Except.ok name, pos + 1)
  | some _ => (Except.error ParseError.expectedIdentifier, pos + 1)
  | none => (Except.error ParseError.unexpectedEnd, pos + 1)

/-- Iteration counter supplied to the statement parser's loops.  Every loop
iteration moves the cursor forward by at least one, so a counter starting at
`toks.length + 1 - pos` can only reach zero once the cursor is past the end
of the slice — exactly where the token lookup yields `none` — and each
loop's zero branch is therefore written identically to its exhausted-input
branch.  The counter is a structural-recursion device, not program state. -/
def loopFuel (toks : List Token) (pos : Nat) : Nat :=
  toks.length + 1 - pos

/-- The column-list loop of `parse_select` (src/parser.rs lines 59–71):
identifiers are appended, commas skipped, `FROM` ends the loop, anything
else is an error. -/
def select_columns_go (toks : List Token) :
    Nat → Nat → List String → Except ParseError (List String) × Nat
  | 0, pos, _ =>
    (Except.error (ParseError.general
      "Unexpected end of input while reading columns."), pos + 1)
  | fuel + 1, pos, acc =>
    match toks[pos]? with
    | some (Token.identifier name) =>
      select_columns_go toks fuel (pos + 1) (acc ++ [name])
    | some Token.comma => select_columns_go toks fuel (pos + 1) acc
    | some (Token.keyword Keyword.from_) => (Except.ok acc, pos + 1)
    | some tok =>
      (Except.error (ParseError.general
        ("Unexpected token in column list: " ++ tokenDebug tok)), pos + 1)
    | none =>
      (Except.error (ParseError.general
        "Unexpected end of input while reading columns."), pos + 1)

/-- Entry point of the column-list loop of `parse_select`. -/
def select_columns (toks : List Token) (pos : Nat) (acc : List String) :
    Except ParseError (List String) × Nat :=
  select_columns_go toks (loopFuel toks pos) pos acc

/-- The identifier-list loop of the ORDER BY clause (src/parser.rs lines
92–104): identifiers appended, commas skipped, `;` or `Eof` ends the loop. -/
def order_columns_go (toks : List Token) :
    Nat → Nat → List String → Except ParseError (List String) × Nat
  | 0, pos, _ => (Except.error ParseError.unexpectedEnd, pos + 1)
  | fuel + 1, pos, acc =>
    match toks[pos]? with
    | some (Token.identifier name) =>
      order_columns_go toks fuel (pos + 1) (acc ++ [name])
    | some Token.comma => order_columns_go toks fuel (pos + 1) acc
    | some Token.semicolon => (Except.ok acc, pos + 1)
    | some Token.eof => (Except.ok acc, pos + 1)
    | some tok =>
      (Except.error (ParseError.general
        ("Unexpected token in ORDER BY: " ++ tokenDebug tok)), pos + 1)
    | none => (Except.error ParseError.unexpectedEnd, pos + 1)

/-- Entry point of the ORDER BY identifier-list loop. -/
def order_columns (toks : List Token) (pos : Nat) (acc : List String) :
    Except ParseError (List String) × Nat :=
  order_columns_go toks (loopFuel toks pos) pos acc

/-- The WHERE block of `parse_select` (src/parser.rs lines 75–84).  When the
peeked token is `WHERE` the source consumes it, hands the remaining token
slice to a fresh Pratt parser, and stores the resulting expression — but it
never adds the sub-parser's final cursor back onto `self.position`, so the
returned cursor is just past `WHERE`, still pointing at the first token of
the expression.  This translation preserves that behaviour. -/
def parse_where (toks : List Token) (pos : Nat) :
    Except ParseError (Option Expression) × Nat :=
  match peek toks pos with
  | some (Token.keyword Keyword.where_) =>
    match parse_expression (3 * (toks.drop (pos + 1)).length + 3) 1
        (toks.drop (pos + 1)) 0 with
    | Except.ok (e, _) => (Except.ok (some e), pos + 1)
    | Except.error msg =>
      (Except.error (ParseError.invalidExpression msg), pos + 1)
  | _ => (Except.ok none, pos)

/-- The ORDER BY block of `parse_select` (src/parser.rs lines 86–106). -/
def parse_order_by (toks : List Token) (pos : Nat) :
    Except ParseError (Option (List String)) × Nat :=
  match peek toks pos with
  | some (Token.keyword Keyword.order) =>
    match expect_keyword toks (pos + 1) Keyword.by_ with
    | (Except.error e, p) => (Except.error e, p)
    | (Except.ok _, p) =>
      match order_columns toks p [] with
      | (Except.error e, q) => (Except.error e, q)
      | (Except.ok cols, q) => (Except.ok (some cols), q)
  | _ => (Except.ok none, pos)

/-- `SQLParser::parse_select` (src/parser.rs lines 54–114). -/
def parse_select (toks : List Token) (pos : Nat) :
    Except ParseError Statement × Nat :=
  match expect_keyword toks pos Keyword.select with
  | (Except.error e, p) => (Except.error e, p)
  | (Except.ok _, p0) =>
    match select_columns toks p0 [] with
    | (Except.error e, p) => (Except.error e, p)
    | (Except.ok columns, p1) =>
      match expect_identifier toks p1 with
      | (Except.error e, p) => (Except.error e, p)
      | (Except.ok table, p2) =>
        match parse_where toks p2 with
        | (Except.error e, p) => (Except.error e, p)
        | (Except.ok selection, p3) =>
          match parse_order_by toks p3 with
          | (Except.error e, p) => (Except.error e, p)
          | (Except.ok orderBy, p4) =>
            (Except.ok (Statement.select columns table selection orderBy), p4)

/-- `SQLParser::parse_column_type` (src/parser.rs lines 152–171), with the
cursor arithmetic of the source's `advance`/`peek` calls made explicit: the
type token is consumed, then for `VARCHAR` the `(` is peeked and consumed,
and the size and `)` are consumed by `advance` whether or not they match. -/
def parse_column_type (toks : List Token) (pos : Nat) :
    Except ParseError DataType × Nat :=
  match toks[pos]? with
  | some (Token.keyword Keyword.int) => (Except.ok DataType.int, pos + 1)
  | some (Token.keyword Keyword.varchar) =>
    match toks[pos + 1]? with
    | some Token.leftParen =>
      match toks[pos + 2]? with
      | some (Token.number n) =>
        match toks[pos + 3]? with
        | some Token.rightParen => (Except.ok (DataType.varchar n), pos + 4)
        | _ =>
          (Except.error (ParseError.general "Expected size for Varchar"), pos + 4)
      | _ =>
        (Except.error (ParseError.general "Expected size for Varchar"), pos + 3)
    | _ =>
      (Except.error (ParseError.general "Expected size for Varchar"), pos + 1)
  | some (Token.keyword Keyword.boolean) => (Except.ok DataType.boolean, pos + 1)
  | some tok =>
    (Except.error (ParseError.general
      ("Unexpected column type: " ++ tokenDebug tok)), pos + 1)
  | none => (Except.error ParseError.unexpectedEnd, pos + 1)

/-- The column-definition loop of `parse_create_table` (src/parser.rs lines
125–144): an identifier starts a column definition whose type is read by
`parse_column_type`, commas are skipped, `)` ends the loop. -/
def create_columns_go (toks : List Token) :
    Nat → Nat → List ColumnDef → Except ParseError (List ColumnDef) × Nat
  | 0, pos, _ => (Except.error ParseError.unexpectedEnd, pos + 1)
  | fuel + 1, pos, acc =>
    match toks[pos]? with
    | some (Token.identifier colName) =>
      match parse_column_type toks (pos + 1) with
      | (Except.error e, p) => (Except.error e, p)
      | (Except.ok dt, p) =>
        create_columns_go toks fuel p (acc ++ [{ name := colName, dataType := dt }])
    | some Token.comma => create_columns_go toks fuel (pos + 1) acc
    | some Token.rightParen => (Except.ok acc, pos + 1)
    | some tok =>
      (Except.error (ParseError.general
        ("Unexpected token: " ++ tokenDebug tok)), pos + 1)
    | none => (Except.error ParseError.unexpectedEnd, pos + 1)

/-- Entry point of the column-definition loop of `parse_create_table`. -/
def create_columns (toks : List Token) (pos : Nat) (acc : List ColumnDef) :
    Except ParseError (List ColumnDef) × Nat :=
  create_columns_go toks (loopFuel toks pos) pos acc

/-- `SQLParser::parse_create_table` (src/parser.rs lines 116–150).  Note the
source expects the `(` after the table name via `expect_keyword` with
`Keyword::LeftParen`, a keyword-wrapped token. -/
def parse_create_table (toks : List Token) (pos : Nat) :
    Except ParseError Statement × Nat :=
  match expect_keyword toks pos Keyword.create with
  | (Except.error e, p) => (Except.error e, p)
  | (Except.ok _, p0) =>
    match expect_keyword toks p0 Keyword.table with
    | (Except.error e, p) => (Except.error e, p)
    | (Except.ok _, p1) =>
      match expect_identifier toks p1 with
      | (Except.error e, p) => (Except.error e, p)
      | (Except.ok tableName, p2) =>
        match expect_keyword toks p2 Keyword.leftParen with
        | (Except.error e, p) => (Except.error e, p)
        | (Except.ok _, p3) =>
          match create_columns toks p3 [] with
          | (Except.error e, p) => (Except.error e, p)
          | (Except.ok columns, p4) =>
            (Except.ok (Statement.createTable tableName columns), p4)

/-- The column-name loop of `parse_insert` (src/parser.rs lines 182–194). -/
def insert_columns_go (toks : List Token) :
    Nat → Nat → List String → Except ParseError (List String) × Nat
  | 0, pos, _ => (Except.error ParseError.unexpectedEnd, pos + 1)
  | fuel + 1, pos, acc =>
    match toks[pos]? with
    | some (Token.identifier name) =>
      insert_columns_go toks fuel (pos + 1) (acc ++ [name])
    | some Token.comma => insert_columns_go toks fuel (pos + 1) acc
    | some Token.rightParen => (Except.ok acc, pos + 1)
    | some tok =>
      (Except.error (ParseError.general
        ("Unexpected token in column list: " ++ tokenDebug tok)), pos + 1)
    | none => (Except.error ParseError.unexpectedEnd, pos + 1)

/-- Entry point of the column-name loop of `parse_insert`. -/
def insert_columns (toks : List Token) (pos : Nat) (acc : List String) :
    Except ParseError (List String) × Nat :=
  insert_columns_go toks (loopFuel toks pos) pos acc

/-- The VALUES loop of `parse_insert` (src/parser.rs lines 200–217): each
value is a number, string, boolean, `NULL`, or bare identifier, wrapped in
the corresponding `Expression` constructor directly, with no call into the
expression parser; commas are skipped and `)` ends the loop. -/
def insert_values_go (toks : List Token) :
    Nat → Nat → List Expression → Except ParseError (List Expression) × Nat
  | 0, pos, _ => (Except.error ParseError.unexpectedEnd, pos + 1)
  | fuel + 1, pos, acc =>
    match toks[pos]? with
    | some (Token.number n) =>
      insert_values_go toks fuel (pos + 1) (acc ++ [Expression.number n])
    | some (Token.string s) =>
      insert_values_go toks fuel (pos + 1) (acc ++ [Expression.string s])
    | some (Token.boolean b) =>
      insert_values_go toks fuel (pos + 1) (acc ++ [Expression.boolean b])
    | some Token.null =>
      insert_values_go toks fuel (pos + 1) (acc ++ [Expression.null])
    | some (Token.identifier s) =>
      insert_values_go toks fuel (pos + 1) (acc ++ [Expression.identifier s])
    | some Token.comma => insert_values_go toks fuel (pos + 1) acc
    | some Token.rightParen => (Except.ok acc, pos + 1)
    | some tok =>
      (Except.error (ParseError.general
        ("Unexpected token in VALUES: " ++ tokenDebug tok)), pos + 1)
    | none => (Except.error ParseError.unexpectedEnd, pos + 1)

/-- Entry point of the VALUES loop of `parse_insert`. -/
def insert_values (toks : List Token) (pos : Nat) (acc : List Expression) :
    Except ParseError (List Expression) × Nat :=
  insert_values_go toks (loopFuel toks pos) pos acc

/-- `SQLParser::parse_insert` (src/parser.rs lines 173–224).  Both `(` are
expected via `expect_keyword` with `Keyword::LeftParen`. -/
def parse_insert (toks : List Token) (pos : Nat) :
    Except ParseError Statement × Nat :=
  match expect_keyword toks pos Keyword.insert with
  | (Except.error e, p) => (Except.error e, p)
  | (Except.ok _, p0) =>
    match expect_keyword toks p0 Keyword.into with
    | (Except.error e, p) => (Except.error e, p)
    | (Except.ok _, p1) =>
      match expect_identifier toks p1 with
      | (Except.error e, p) => (Except.error e, p)
      | (Except.ok tableName, p2) =>
        match expect_keyword toks p2 Keyword.leftParen with
        | (Except.error e, p) => (Except.error e, p)
        | (Except.ok _, p3) =>
          match insert_columns toks p3 [] with
          | (Except.error e, p) => (Except.error e, p)
          | (Except.ok columns, p4) =>
            match expect_keyword toks p4 Keyword.values with
            | (Except.error e, p) => (Except.error e, p)
            | (Except.ok _, p5) =>
              match expect_keyword toks p5 Keyword.leftParen with
              | (Except.error e, p) => (Except.error e, p)
              | (Except.ok _, p6) =>
                match insert_values toks p6 [] with
                | (Except.error e, p) => (Except.error e, p)
                | (Except.ok vals, p7) =>
                  (Except.ok (Statement.insert tableName columns vals), p7)

/-- `SQLParser::parse_statement` (src/parser.rs lines 43–52): dispatch on
the peeked token; an unrecognized token gives `UnknownStartOfStatement`, an
empty token slice gives `General("Empty input")`.  The cursor is unchanged
on the two error branches because only `peek` was called. -/
def parse_statement (toks : List Token) (pos : Nat) :
    Except ParseError Statement × Nat :=
  match peek toks pos with
  | some (Token.keyword Keyword.select) => parse_select toks pos
  | some (Token.keyword Keyword.create) => parse_create_table toks pos
  | some (Token.keyword Keyword.insert) => parse_insert toks pos
  | some tok =>
    (Except.error (ParseError.unknownStartOfStatement (tokenDebug tok)), pos)
  | none => (Except.error (ParseError.general "Empty input"), pos)

/-- Whether an optional token is a `number` literal; used to state the
VARCHAR size requirement decidably. -/
def isNumberTok : Option Token → Bool
  | some (Token.number _) => true
  | _ => false

/-- `expect_keyword` always moves the cursor forward by exactly one. -/
theorem expect_keyword_snd (toks : List Token) (pos : Nat) (k : Keyword) :
    (expect_keyword toks pos k).2 = pos + 1 := by
  unfold expect_keyword
  split
  · split <;> rfl
  · rfl
  · rfl

/-- `expect_identifier` always moves the cursor forward by exactly one. -/
theorem expect_identifier_snd (toks : List Token) (pos : Nat) :
    (expect_identifier toks pos).2 = pos + 1 := by
  unfold expect_identifier
  split <;> rfl

/-- `parse_column_type` always moves the cursor strictly forward. -/
theorem parse_column_type_lt (toks : List Token) (pos : Nat) :
    pos < (parse_column_type toks pos).2 := by
  unfold parse_column_type
  split <;> try exact Nat.lt_add_of_pos_right (by omega)
  split <;> try exact Nat.lt_add_of_pos_right (by omega)
  split <;> try exact Nat.lt_add_of_pos_right (by omega)
  split <;> exact Nat.lt_add_of_pos_right (by omega)

/-- The SELECT column-list loop never moves the cursor backwards. -/
theorem select_columns_go_le (toks : List Token) (fuel : Nat) :
    ∀ pos acc, pos ≤ (select_columns_go toks fuel pos acc).2 := by
  induction fuel with
  | zero => intro pos acc; exact Nat.le_succ pos
  | succ fuel ih =>
    intro pos acc
    simp only [select_columns_go]
    split
    · exact Nat.le_trans (Nat.le_succ pos) (ih (pos + 1) _)
    · exact Nat.le_trans (Nat.le_succ pos) (ih (pos + 1) _)
    · exact Nat.le_succ pos
    · exact Nat.le_succ pos
    · exact Nat.le_succ pos

/-- The ORDER BY identifier-list loop never moves the cursor backwards. -/
theorem order_columns_go_le (toks : List Token) (fuel : Nat) :
    ∀ pos acc, pos ≤ (order_columns_go toks fuel pos acc).2 := by
  induction fuel with
  | zero => intro pos acc; exact Nat.le_succ pos
  | succ fuel ih =>
    intro pos acc
    simp only [order_columns_go]
    split
    · exact Nat.le_trans (Nat.le_succ pos) (ih (pos + 1) _)
    · exact Nat.le_trans (Nat.le_succ pos) (ih (pos + 1) _)
    · exact Nat.le_succ pos
    · exact Nat.le_succ pos
    · exact Nat.le_succ pos
    · exact Nat.le_succ pos

/-- The CREATE TABLE column-definition loop never moves the cursor
backwards. -/
theorem create_columns_go_le (toks : List Token) (fuel : Nat) :
    ∀ pos acc, pos ≤ (create_columns_go toks fuel pos acc).2 := by
  induction fuel with
  | zero => intro pos acc; exact Nat.le_succ pos
  | succ fuel ih =>
    intro pos acc
    simp only [create_columns_go]
    split
    · split
      · rename_i colName e p heq
        have h1 := parse_column_type_lt toks (pos + 1)
        rw [heq] at h1
        simp at h1 ⊢
        omega
      · rename_i colName dt p heq
        have h1 := parse_column_type_lt toks (pos + 1)
        rw [heq] at h1
        simp at h1
        exact Nat.le_trans (by omega) (ih p _)
    · exact Nat.le_trans (Nat.le_succ pos) (ih (pos + 1) _)
    · exact Nat.le_succ pos
    · exact Nat.le_succ pos
    · exact Nat.le_succ pos

/-- The INSERT column-name loop never moves the cursor backwards. -/
theorem insert_columns_go_le (toks : List Token) (fuel : Nat) :
    ∀ pos acc, pos ≤ (insert_columns_go toks fuel pos acc).2 := by
  induction fuel with
  | zero => intro pos acc; exact Nat.le_succ pos
  | succ fuel ih =>
    intro pos acc
    simp only [insert_columns_go]
    split
    · exact Nat.le_trans (Nat.le_succ pos) (ih (pos + 1) _)
    · exact Nat.le_trans (Nat.le_succ pos) (ih (pos + 1) _)
    · exact Nat.le_succ pos
    · exact Nat.le_succ pos
    · exact Nat.le_succ pos

/-- The VALUES loop never moves the cursor backwards. -/
theorem insert_values_go_le (toks : List Token) (fuel : Nat) :
    ∀ pos acc, pos ≤ (insert_values_go toks fuel pos acc).2 := by
  induction fuel with
  | zero => intro pos acc; exact Nat.le_succ pos
  | succ fuel ih =>
    intro pos acc
    simp only [insert_values_go]
    split
    · exact Nat.le_trans (Nat.le_succ pos) (ih (pos + 1) _)
    · exact Nat.le_trans (Nat.le_succ pos) (ih (pos + 1) _)
    · exact Nat.le_trans (Nat.le_succ pos) (ih (pos + 1) _)
    · exact Nat.le_trans (Nat.le_succ pos) (ih (pos + 1) _)
    · exact Nat.le_trans (Nat.le_succ pos) (ih (pos + 1) _)
    · exact Nat.le_trans (Nat.le_succ pos) (ih (pos + 1) _)
    · exact Nat.le_succ pos
    · exact Nat.le_succ pos
    · exact Nat.le_succ pos

/-- Cursor monotonicity of the SELECT column-list entry point. -/
theorem select_columns_le (toks : List Token) (pos : Nat) (acc : List String) :
    pos ≤ (select_columns toks pos acc).2 :=
  select_columns_go_le toks (loopFuel toks pos) pos acc

/-- Cursor monotonicity of the ORDER BY identifier-list entry point. -/
theorem order_columns_le (toks : List Token) (pos : Nat) (acc : List String) :
    pos ≤ (order_columns toks pos acc).2 :=
  order_columns_go_le toks (loopFuel toks pos) pos acc

/-- Cursor monotonicity of the CREATE TABLE column-definition entry point. -/
theorem create_columns_le (toks : List Token) (pos : Nat) (acc : List ColumnDef) :
    pos ≤ (create_columns toks pos acc).2 :=
  create_columns_go_le toks (loopFuel toks pos) pos acc

/-- Cursor monotonicity of the INSERT column-name entry point. -/
theorem insert_columns_le (toks : List Token) (pos : Nat) (acc : List String) :
    pos ≤ (insert_columns toks pos acc).2 :=
  insert_columns_go_le toks (loopFuel toks pos) pos acc

/-- Cursor monotonicity of the VALUES entry point. -/
theorem insert_values_le (toks : List Token) (pos : Nat) (acc : List Expression) :
    pos ≤ (insert_values toks pos acc).2 :=
  insert_values_go_le toks (loopFuel toks pos) pos acc

/-- The WHERE block never moves the cursor backwards. -/
theorem parse_where_le (toks : List Token) (pos : Nat) :
    pos ≤ (parse_where toks pos).2 := by
  unfold parse_where
  split
  · split <;> exact Nat.le_succ pos
  · exact Nat.le_refl pos

/-- The ORDER BY block never moves the cursor backwards. -/
theorem parse_order_by_le (toks : List Token) (pos : Nat) :
    pos ≤ (parse_order_by toks pos).2 := by
  unfold parse_order_by
  split
  · split
    · rename_i e p heq
      have h1 := expect_keyword_snd toks (pos + 1) Keyword.by_
      rw [heq] at h1
      simp at h1 ⊢
      omega
    · rename_i u p heq
      have h1 := expect_keyword_snd toks (pos + 1) Keyword.by_
      rw [heq] at h1
      simp at h1
      split
      · rename_i e q heq2
        have h2 := order_columns_le toks p []
        rw [heq2] at h2
        simp at h2 ⊢
        omega
      · rename_i cols q heq2
        have h2 := order_columns_le toks p []
        rw [heq2] at h2
        simp at h2 ⊢
        omega
  · exact Nat.le_refl pos

/-- `parse_select` never moves the cursor backwards. -/
theorem parse_select_le (toks : List Token) (pos : Nat) :
    pos ≤ (parse_select toks pos).2 := by
  unfold parse_select
  split
  · rename_i e p heq
    have h1 := expect_keyword_snd toks pos Keyword.select
    rw [heq] at h1
    simp at h1 ⊢
    omega
  · rename_i u p0 heq
    have h1 := expect_keyword_snd toks pos Keyword.select
    rw [heq] at h1
    simp at h1
    split
    · rename_i e p heq1
      have h2 := select_columns_le toks p0 []
      rw [heq1] at h2
      simp at h2 ⊢
      omega
    · rename_i columns p1 heq1
      have h2 := select_columns_le toks p0 []
      rw [heq1] at h2
      simp at h2
      split
      · rename_i e p heq2
        have h3 := expect_identifier_snd toks p1
        rw [heq2] at h3
        simp at h3 ⊢
        omega
      · rename_i table p2 heq2
        have h3 := expect_identifier_snd toks p1
        rw [heq2] at h3
        simp at h3
        split
        · rename_i e p heq3
          have h4 := parse_where_le toks p2
          rw [heq3] at h4
          simp at h4 ⊢
          omega
        · rename_i selection p3 heq3
          have h4 := parse_where_le toks p2
          rw [heq3] at h4
          simp at h4
          split
          · rename_i e p heq4
            have h5 := parse_order_by_le toks p3
            rw [heq4] at h5
            simp at h5 ⊢
            omega
          · rename_i orderBy p4 heq4
            have h5 := parse_order_by_le toks p3
            rw [heq4] at h5
            simp at h5 ⊢
            omega

/-- `parse_create_table` never moves the cursor backwards. -/
theorem parse_create_table_le (toks : List Token) (pos : Nat) :
    pos ≤ (parse_create_table toks pos).2 := by
  unfold parse_create_table
  split
  · rename_i e p heq
    have h1 := expect_keyword_snd toks pos Keyword.create
    rw [heq] at h1
    simp at h1 ⊢
    omega
  · rename_i u p0 heq
    have h1 := expect_keyword_snd toks pos Keyword.create
    rw [heq] at h1
    simp at h1
    split
    · rename_i e p heq1
      have h2 := expect_keyword_snd toks p0 Keyword.table
      rw [heq1] at h2
      simp at h2 ⊢
      omega
    · rename_i u1 p1 heq1
      have h2 := expect_keyword_snd toks p0 Keyword.table
      rw [heq1] at h2
      simp at h2
      split
      · rename_i e p heq2
        have h3 := expect_identifier_snd toks p1
        rw [heq2] at h3
        simp at h3 ⊢
        omega
      · rename_i tableName p2 heq2
        have h3 := expect_identifier_snd toks p1
        rw [heq2] at h3
        simp at h3
        split
        · rename_i e p heq3
          have h4 := expect_keyword_snd toks p2 Keyword.leftParen
          rw [heq3] at h4
          simp at h4 ⊢
          omega
        · rename_i u2 p3 heq3
          have h4 := expect_keyword_snd toks p2 Keyword.leftParen
          rw [heq3] at h4
          simp at h4
          split
          · rename_i e p heq4
            have h5 := create_columns_le toks p3 []
            rw [heq4] at h5
            simp at h5 ⊢
            omega
          · rename_i columns p4 heq4
            have h5 := create_columns_le toks p3 []
            rw [heq4] at h5
            simp at h5 ⊢
            omega

/-- `parse_insert` never moves the cursor backwards. -/
theorem parse_insert_le (toks : List Token) (pos : Nat) :
    pos ≤ (parse_insert toks pos).2 := by
  unfold parse_insert
  split
  · rename_i e p heq
    have h1 := expect_keyword_snd toks pos Keyword.insert
    rw [heq] at h1
    simp at h1 ⊢
    omega
  · rename_i u p0 heq
    have h1 := expect_keyword_snd toks pos Keyword.insert
    rw [heq] at h1
    simp at h1
    split
    · rename_i e p heq1
      have h2 := expect_keyword_snd toks p0 Keyword.into
      rw [heq1] at h2
      simp at h2 ⊢
      omega
    · rename_i u1 p1 heq1
      have h2 := expect_keyword_snd toks p0 Keyword.into
      rw [heq1] at h2
      simp at h2
      split
      · rename_i e p heq2
        have h3 := expect_identifier_snd toks p1
        rw [heq2] at h3
        simp at h3 ⊢
        omega
      · rename_i tableName p2 heq2
        have h3 := expect_identifier_snd toks p1
        rw [heq2] at h3
        simp at h3
        split
        · rename_i e p heq3
          have h4 := expect_keyword_snd toks p2 Keyword.leftParen
          rw [heq3] at h4
          simp at h4 ⊢
          omega
        · rename_i u2 p3 heq3
          have h4 := expect_keyword_snd toks p2 Keyword.leftParen
          rw [heq3] at h4
          simp at h4
          split
          · rename_i e p heq4
            have h5 := insert_columns_le toks p3 []
            rw [heq4] at h5
            simp at h5 ⊢
            omega
          · rename_i columns p4 heq4
            have h5 := insert_columns_le toks p3 []
            rw [heq4] at h5
            simp at h5
            split
            · rename_i e p heq5
              have h6 := expect_keyword_snd toks p4 Keyword.values
              rw [heq5] at h6
              simp at h6 ⊢
              omega
            · rename_i u3 p5 heq5
              have h6 := expect_keyword_snd toks p4 Keyword.values
              rw [heq5] at h6
              simp at h6
              split
              · rename_i e p heq6
                have h7 := expect_keyword_snd toks p5 Keyword.leftParen
                rw [heq6] at h7
                simp at h7 ⊢
                omega
              · rename_i u4 p6 heq6
                have h7 := expect_keyword_snd toks p5 Keyword.leftParen
                rw [heq6] at h7
                simp at h7
                split
                · rename_i e p heq7
                  have h8 := insert_values_le toks p6 []
                  rw [heq7] at h8
                  simp at h8 ⊢
                  omega
                · rename_i vals p7 heq7
                  have h8 := insert_values_le toks p6 []
                  rw [heq7] at h8
                  simp at h8 ⊢
                  omega

/-- `parse_statement` never moves the cursor backwards. -/
theorem parse_statement_le (toks : List Token) (pos : Nat) :
    pos ≤ (parse_statement toks pos).2 := by
  unfold parse_statement
  split
  · exact parse_select_le toks pos
  · exact parse_create_table_le toks pos
  · exact parse_insert_le toks pos
  · exact Nat.le_refl pos
  · exact Nat.le_refl pos

/-- C1: the claim says that for `SELECT a FROM t WHERE a = 1 ORDER BY a` the
ORDER keyword is still recognized after the WHERE expression is parsed, and
`order_by` is set to `Some(["a"])`.  The code does not do this: the WHERE
block hands the remaining slice to a fresh Pratt parser but never adds the
sub-parser's consumption back onto the statement parser's cursor, so after
the WHERE expression the cursor still points at `a` (position 5), the ORDER
check peeks an identifier instead of `ORDER`, and the ORDER BY clause is
silently dropped: the parse succeeds with `order_by = None`. -/
theorem where_then_order_by_dropped :
    parse_statement (tokenize "SELECT a FROM t WHERE a = 1 ORDER BY a") 0 =
      (Except.ok (Statement.select ["a"] "t"
        (some (Expression.binaryOperation (Expression.identifier "a")
          BinaryOperator.equals (Expression.number 1))) none), 5) := rfl

/-- C2: the claim says `CREATE TABLE t (a INT, b VARCHAR(10))` parses to the
corresponding `CreateTable` statement.  The code instead fails at the `(`
after the table name: `parse_create_table` demands it via `expect_keyword`
with `Keyword::LeftParen`, which only accepts a keyword-wrapped token, while
the tokenizer produces the punctuation token `LeftParen`, so the result is
`ExpectedKeyword("LeftParen")`. -/
theorem create_table_left_paren_rejected :
    parse_statement (tokenize "CREATE TABLE t (a INT, b VARCHAR(10))") 0 =
      (Except.error (ParseError.expectedKeyword "LeftParen"), 4) := rfl

/-- C3: the claim says `INSERT INTO t (a, b) VALUES (5, true)` parses to the
corresponding `Insert` statement.  The code instead fails at the `(` after
the table name, for the same reason as in `parse_create_table`: the `(` is
demanded via `expect_keyword` with `Keyword::LeftParen` but the tokenizer
produces the punctuation token `LeftParen`. -/
theorem insert_left_paren_rejected :
    parse_statement (tokenize "INSERT INTO t (a, b) VALUES (5, true)") 0 =
      (Except.error (ParseError.expectedKeyword "LeftParen"), 4) := rfl

/-- C4 counterexample: tokenizing an empty line yields `[Eof]`, and on that
sequence `parse_statement` does not return `General("Empty input")` — the
peek sees the `Eof` token, not an empty slice. -/
theorem empty_input_error_kind_counterexample :
    (parse_statement (tokenize "") 0).1 ≠
      Except.error (ParseError.general "Empty input") := by
  have he : (parse_statement (tokenize "") 0).1 =
      Except.error (ParseError.unknownStartOfStatement "Eof") := rfl
  rw [he]
  simp

/-- C4 amended: tokenizing an empty line yields `[Eof]`, on which
`parse_statement` returns `UnknownStartOfStatement("Eof")`; the
`General("Empty input")` branch fires only on a token sequence with no
tokens at all, which `tokenize` never produces. -/
theorem empty_input_error_kind :
    tokenize "" = [Token.eof] ∧
    (parse_statement (tokenize "") 0).1 =
      Except.error (ParseError.unknownStartOfStatement "Eof") ∧
    (parse_statement [] 0).1 =
      Except.error (ParseError.general "Empty input") :=
  ⟨rfl, rfl, rfl⟩

/-- C5: for every token sequence of the shape
`SELECT c1 , c2 FROM t <Eof>` with arbitrary identifiers `c1`, `c2`, `t`,
`parse_statement` returns `Select` with the two column names in input
order, the table name, no selection and no ORDER BY list. -/
theorem select_two_columns_shape (c1 c2 t : String) :
    parse_statement [Token.keyword Keyword.select, Token.identifier c1,
      Token.comma, Token.identifier c2, Token.keyword Keyword.from_,
      Token.identifier t, Token.eof] 0 =
      (Except.ok (Statement.select [c1, c2] t none none), 6) := rfl

/-- C6: whenever the token at the cursor is the `VARCHAR` keyword and the
three following tokens are not `(`, a number literal, and `)`,
`parse_column_type` returns the error `General("Expected size for
Varchar")` — never a success with a defaulted size. -/
theorem varchar_size_required (toks : List Token) (pos : Nat)
    (hv : toks[pos]? = some (Token.keyword Keyword.varchar))
    (hbad : ¬ (toks[pos + 1]? = some Token.leftParen ∧
               isNumberTok (toks[pos + 2]?) = true ∧
               toks[pos + 3]? = some Token.rightParen)) :
    (parse_column_type toks pos).1 =
      Except.error (ParseError.general "Expected size for Varchar") := by
  unfold parse_column_type
  rw [hv]
  rcases h1 : toks[pos + 1]? with _ | t1
  · simp
  · cases t1 <;> simp
    rcases h2 : toks[pos + 2]? with _ | t2
    · simp
    · cases t2 <;> simp
      rename_i n
      rcases h3 : toks[pos + 3]? with _ | t3
      · simp
      · cases t3 <;> simp
        exact absurd ⟨h1, by simp [isNumberTok, h2], h3⟩ hbad

/-- C6 witness: a bare `VARCHAR` followed by `Eof` yields the error. -/
theorem varchar_size_required_witness :
    (parse_column_type [Token.keyword Keyword.varchar, Token.eof] 0).1 =
      Except.error (ParseError.general "Expected size for Varchar") :=
  varchar_size_required [Token.keyword Keyword.varchar, Token.eof] 0 rfl
    (by decide)

/-- C7: `SELECT a FROM t ORDER BY a` without a trailing semicolon and with
one both parse successfully, and to the same `Select` statement. -/
theorem order_by_semicolon_optional :
    (parse_statement (tokenize "SELECT a FROM t ORDER BY a") 0).1 =
      Except.ok (Statement.select ["a"] "t" none (some ["a"])) ∧
    (parse_statement (tokenize "SELECT a FROM t ORDER BY a;") 0).1 =
      Except.ok (Statement.select ["a"] "t" none (some ["a"])) :=
  ⟨rfl, rfl⟩

/-- C8: the statement parser's cursor is monotonically non-decreasing: no
operation ever returns a cursor smaller than the one it was given, so
parsing never rewinds.  (`peek` does not return a cursor at all.) -/
theorem cursor_monotone (toks : List Token) (pos : Nat) (k : Keyword)
    (acc : List String) (accC : List ColumnDef) (accE : List Expression) :
    pos ≤ (advance toks pos).2 ∧
    pos ≤ (expect_keyword toks pos k).2 ∧
    pos ≤ (expect_identifier toks pos).2 ∧
    pos ≤ (select_columns toks pos acc).2 ∧
    pos ≤ (order_columns toks pos acc).2 ∧
    pos ≤ (parse_column_type toks pos).2 ∧
    pos ≤ (create_columns toks pos accC).2 ∧
    pos ≤ (insert_columns toks pos acc).2 ∧
    pos ≤ (insert_values toks pos accE).2 ∧
    pos ≤ (parse_where toks pos).2 ∧
    pos ≤ (parse_order_by toks pos).2 ∧
    pos ≤ (parse_select toks pos).2 ∧
    pos ≤ (parse_create_table toks pos).2 ∧
    pos ≤ (parse_insert toks pos).2 ∧
    pos ≤ (parse_statement toks pos).2 :=
  ⟨Nat.le_succ pos,
   by rw [expect_keyword_snd]; omega,
   by rw [expect_identifier_snd]; omega,
   select_columns_le toks pos acc,
   order_columns_le toks pos acc,
   Nat.le_of_lt (parse_column_type_lt toks pos),
   create_columns_le toks pos accC,
   insert_columns_le toks pos acc,
   insert_values_le toks pos accE,
   parse_where_le toks pos,
   parse_order_by_le toks pos,
   parse_select_le toks pos,
   parse_create_table_le toks pos,
   parse_insert_le toks pos,
   parse_statement_le toks pos⟩

/-- C9: `SELECT FROM t` — the `FROM` keyword immediately after `SELECT` —
parses successfully to a `Select` with an empty column list: the column
loop breaks on `FROM` without requiring any identifier first. -/
theorem select_empty_column_list :
    parse_statement (tokenize "SELECT FROM t") 0 =
      (Except.ok (Statement.select [] "t" none none), 3) := rfl

/-- C10: `parse_statement` is a total function of the token sequence: for
every finite sequence, with or without a trailing `Eof`, it returns either
an `ok` statement or an `error`; all token access in the embedding goes
through Option-returning indexing, mirroring the source's `peek` and
`advance`, and there is no other way out. -/
theorem parse_statement_total (toks : List Token) :
    (∃ s, (parse_statement toks 0).1 = Except.ok s) ∨
    (∃ e, (parse_statement toks 0).1 = Except.error e) := by
  cases h : (parse_statement toks 0).1 with
  | error e => exact Or.inr ⟨e, rfl⟩
  | ok s => exact Or.inl ⟨s, rfl⟩

end SQLParser
